import Mathlib

set_option linter.unusedVariables false

/-!
Shallow embedding of src/src/atproto.rs from the bisky crate: the session
model, login, token refresh, the GET/POST dispatcher with its one-shot
expired-token retry, and the record convenience operations.  HTTP sends and
body parses are external effects; each send is modelled by an oracle value
describing what the client observes, and each operation returns its result
together with the final client state and a trace of the requests it issued.
-/

namespace Bisky

/-- Credential pair held by a session: struct Jwt in atproto.rs. -/
structure Jwt where
  access : String
  refresh : String
deriving Repr, DecidableEq

/-- Client session: struct Session in atproto.rs. -/
structure Session where
  did : String
  handle : String
  jwt : Jwt
deriving Repr, DecidableEq

/-- Modelled from the spec: the lexicon response type CreateSession
(crate lexicon com.atproto.server, whose source file is not under src/)
is the login response with identity, handle and the two credential
fields, as documented in the spec sections 6 and 8. -/
structure CreateSession where
  did : String
  handle : String
  access_jwt : String
  refresh_jwt : String
deriving Repr, DecidableEq

/-- Modelled from the spec: the lexicon response type RefreshSession
(crate lexicon com.atproto.server, whose source file is not under src/)
is the refresh response with the same four fields as the login response. -/
structure RefreshSession where
  did : String
  handle : String
  access_jwt : String
  refresh_jwt : String
deriving Repr, DecidableEq

/-- impl From of CreateSession for Session: verbatim field copies. -/
def Session.fromCreate (c : CreateSession) : Session :=
  { did := c.did
    handle := c.handle
    jwt := { access := c.access_jwt, refresh := c.refresh_jwt } }

/-- impl From of RefreshSession for Session: verbatim field copies. -/
def Session.fromRefresh (r : RefreshSession) : Session :=
  { did := r.did
    handle := r.handle
    jwt := { access := r.access_jwt, refresh := r.refresh_jwt } }

/-- struct ApiError: the structured application-level error body. -/
structure ApiError where
  error : String
  message : String
deriving Repr, DecidableEq

/-- The kinds of reqwest errors the client code can produce: a network
failure at send, a body-parse (json) failure, or the error produced by
error_for_status on a client- or server-error status code. -/
inductive ReqwestError where
  | network : ReqwestError
  | parse : ReqwestError
  | status : Nat → ReqwestError
deriving Repr, DecidableEq

/-- enum RefreshError, generic over the storage backend error E. -/
inductive RefreshError (E : Type) where
  | reqwest : ReqwestError → RefreshError E
  | storage : E → RefreshError E
  | api : ApiError → RefreshError E
  | blank : RefreshError E
deriving Repr, DecidableEq

/-- enum GetError, generic over the storage backend error E. -/
inductive GetError (E : Type) where
  | reqwest : ReqwestError → GetError E
  | refresh : RefreshError E → GetError E
  | api : ApiError → GetError E
deriving Repr, DecidableEq

/-- enum PostError, generic over the storage backend error E.  The json
variant models a serde serialization failure of the request body. -/
inductive PostError (E : Type) where
  | reqwest : ReqwestError → PostError E
  | refresh : RefreshError E → PostError E
  | json : PostError E
  | api : ApiError → PostError E
deriving Repr, DecidableEq

/-- enum LoginError, generic over the storage backend error E. -/
inductive LoginError (E : Type) where
  | reqwest : ReqwestError → LoginError E
  | api : ApiError → LoginError E
  | authenticationRequired : String → LoginError E
  | storage : E → LoginError E
deriving Repr, DecidableEq

/-- reqwest Response error_for_status errors exactly on client-error and
server-error status codes, that is statuses 400 through 599. -/
def errorForStatus (s : Nat) : Bool :=
  decide (400 ≤ s) && decide (s ≤ 599)

/-- One HTTP send to the refresh endpoint as the client observes it:
a network failure, or a status code together with the result of parsing
the response body as a RefreshSession (none models a parse failure). -/
inductive RefreshSend where
  | netErr : RefreshSend
  | resp : Nat → Option RefreshSession → RefreshSend
deriving Repr, DecidableEq

/-- One HTTP send to a target xrpc endpoint: a network failure, or a
status code together with the results of the two body parses the client
may attempt, as ApiError and as the expected shape D. -/
inductive XrpcSend (D : Type) where
  | netErr : XrpcSend D
  | resp : Nat → Option ApiError → Option D → XrpcSend D
deriving Repr, DecidableEq

/-- Result and post-state of one xrpc_refresh_token call: the returned
value, the in-memory session, the durably stored session, the number of
requests sent to the refresh endpoint, and the number of storage saves
attempted. -/
structure RefreshOut (E : Type) where
  result : Except (RefreshError E) Unit
  session : Session
  stored : Option Session
  refreshReqs : Nat
  saves : Nat

/-- fn xrpc_refresh_token: post to the refresh endpoint with the refresh
credential as bearer, propagate send and error_for_status and parse
failures as reqwest errors, then save the new session; on save failure
return a storage error leaving the in-memory session unchanged, and only
on save success swap the in-memory session. -/
def xrpcRefreshToken {E : Type} (sess : Session) (stored : Option Session)
    (resp : RefreshSend) (saveErr : Option E) : RefreshOut E :=
  match resp with
  | .netErr => ⟨.error (.reqwest .network), sess, stored, 1, 0⟩
  | .resp s body =>
    if errorForStatus s then
      ⟨.error (.reqwest (.status s)), sess, stored, 1, 0⟩
    else
      match body with
      | none => ⟨.error (.reqwest .parse), sess, stored, 1, 0⟩
      | some rs =>
        let session := Session.fromRefresh rs
        match saveErr with
        | some e => ⟨.error (.storage e), sess, stored, 1, 1⟩
        | none => ⟨.ok (), session, some session, 1, 1⟩

/-- The external events one dispatched call can consume: the first send
to the target endpoint, the send to the refresh endpoint, the outcome of
the storage save during refresh (none means success), and the retried
send to the target endpoint.  Later events are only consumed when the
control flow reaches them. -/
structure DispatchOracle (D E : Type) where
  first : XrpcSend D
  refreshResp : RefreshSend
  saveErr : Option E
  second : XrpcSend D

/-- A GET request as issued on the wire: bearer token, xrpc path, query. -/
structure XrpcGetRequest where
  token : String
  path : String
  query : Option (List (String × String))
deriving Repr, DecidableEq

/-- A POST request as issued on the wire: bearer token, xrpc path, body. -/
structure XrpcPostRequest where
  token : String
  path : String
  body : String
deriving Repr, DecidableEq

/-- Result and post-state of one dispatched call: the returned value, the
in-memory session, the stored session, the requests issued to the target
endpoint in order, the number of invocations of the token refresher, the
number of requests to the refresh endpoint, and the storage saves. -/
structure DispatchOut (D Err Req : Type) where
  result : Except Err D
  session : Session
  stored : Option Session
  reqs : List Req
  refreshCalls : Nat
  refreshReqs : Nat
  saves : Nat

/-- Final classification of a response, Ok of error_for_status then json:
an HTTP-status error on statuses 400 through 599, otherwise a parse
failure or the decoded value. -/
def finalizeResp {D : Type} (s : Nat) (av : Option D) : Except ReqwestError D :=
  if errorForStatus s then .error (.status s)
  else
    match av with
    | none => .error .parse
    | some v => .ok v

/-- fn xrpc_get: send a GET with the access credential as bearer; on
status exactly 400 parse the body as ApiError and, when its code is
ExpiredToken, refresh once and resend the identical request with the now
current access credential; any other ApiError code is returned as an API
error; the current response then goes through error_for_status and the
json decode. -/
def xrpcGet {D E : Type} (sess : Session) (stored : Option Session)
    (path : String) (query : Option (List (String × String)))
    (o : DispatchOracle D E) : DispatchOut D (GetError E) XrpcGetRequest :=
  let req1 : XrpcGetRequest := ⟨sess.jwt.access, path, query⟩
  match o.first with
  | .netErr => ⟨.error (.reqwest .network), sess, stored, [req1], 0, 0, 0⟩
  | .resp s ae av =>
    if s = 400 then
      match ae with
      | none => ⟨.error (.reqwest .parse), sess, stored, [req1], 0, 0, 0⟩
      | some err =>
        if err.error = "ExpiredToken" then
          let r := xrpcRefreshToken sess stored o.refreshResp o.saveErr
          match r.result with
          | .error e =>
            ⟨.error (.refresh e), r.session, r.stored, [req1],
              1, r.refreshReqs, r.saves⟩
          | .ok _ =>
            let req2 : XrpcGetRequest := ⟨r.session.jwt.access, path, query⟩
            match o.second with
            | .netErr =>
              ⟨.error (.reqwest .network), r.session, r.stored,
                [req1, req2], 1, r.refreshReqs, r.saves⟩
            | .resp s2 ae2 av2 =>
              ⟨(finalizeResp s2 av2).mapError .reqwest, r.session, r.stored,
                [req1, req2], 1, r.refreshReqs, r.saves⟩
        else
          ⟨.error (.api err), sess, stored, [req1], 0, 0, 0⟩
    else
      ⟨(finalizeResp s av).mapError .reqwest, sess, stored, [req1], 0, 0, 0⟩

/-- fn xrpc_post: serialize the body first (a failure is a Json error
before any send), then the same control flow as xrpc_get with a POST
request carrying the serialized body. -/
def xrpcPost {D E : Type} (sess : Session) (stored : Option Session)
    (path : String) (bodySer : Option String)
    (o : DispatchOracle D E) : DispatchOut D (PostError E) XrpcPostRequest :=
  match bodySer with
  | none => ⟨.error .json, sess, stored, [], 0, 0, 0⟩
  | some body =>
    let req1 : XrpcPostRequest := ⟨sess.jwt.access, path, body⟩
    match o.first with
    | .netErr => ⟨.error (.reqwest .network), sess, stored, [req1], 0, 0, 0⟩
    | .resp s ae av =>
      if s = 400 then
        match ae with
        | none => ⟨.error (.reqwest .parse), sess, stored, [req1], 0, 0, 0⟩
        | some err =>
          if err.error = "ExpiredToken" then
            let r := xrpcRefreshToken sess stored o.refreshResp o.saveErr
            match r.result with
            | .error e =>
              ⟨.error (.refresh e), r.session, r.stored, [req1],
                1, r.refreshReqs, r.saves⟩
            | .ok _ =>
              let req2 : XrpcPostRequest := ⟨r.session.jwt.access, path, body⟩
              match o.second with
              | .netErr =>
                ⟨.error (.reqwest .network), r.session, r.stored,
                  [req1, req2], 1, r.refreshReqs, r.saves⟩
              | .resp s2 ae2 av2 =>
                ⟨(finalizeResp s2 av2).mapError .reqwest, r.session, r.stored,
                  [req1, req2], 1, r.refreshReqs, r.saves⟩
          else
            ⟨.error (.api err), sess, stored, [req1], 0, 0, 0⟩
      else
        ⟨(finalizeResp s av).mapError .reqwest, sess, stored, [req1], 0, 0, 0⟩

/-- One HTTP send to the createSession endpoint: a network failure, or a
status together with the results of parsing the body as ApiError and as
CreateSession. -/
inductive LoginSend where
  | netErr : LoginSend
  | resp : Nat → Option ApiError → Option CreateSession → LoginSend
deriving Repr, DecidableEq

/-- Outcome of fn login.  The panic constructor records that the
unreachable arm of the status match was executed. -/
inductive LoginResult (E : Type) where
  | ok : LoginResult E
  | err : LoginError E → LoginResult E
  | panic : LoginResult E
deriving Repr, DecidableEq

/-- Result and post-state of one login call: outcome, stored session and
the number of storage saves attempted. -/
structure LoginOut (E : Type) where
  result : LoginResult E
  stored : Option Session
  saves : Nat

/-- fn login: post identifier and password to the createSession endpoint;
on status unauthorized return the parsed ApiError; on status ok parse the
body into a Session and save it, returning a storage error if the save
fails; every other status hits the unreachable arm, which panics. -/
def login {E : Type} (identifier : String) (password : String)
    (stored : Option Session) (resp : LoginSend) (saveErr : Option E) :
    LoginOut E :=
  match resp with
  | .netErr => ⟨.err (.reqwest .network), stored, 0⟩
  | .resp s ae ac =>
    if s = 401 then
      match ae with
      | none => ⟨.err (.reqwest .parse), stored, 0⟩
      | some e => ⟨.err (.api e), stored, 0⟩
    else if s = 200 then
      match ac with
      | none => ⟨.err (.reqwest .parse), stored, 0⟩
      | some c =>
        let body := Session.fromCreate c
        match saveErr with
        | some e => ⟨.err (.storage e), stored, 1⟩
        | none => ⟨.ok, some body, 1⟩
    else ⟨.panic, stored, 0⟩

/-- Modelled from the spec: the record envelope returned by the record
read calls (lexicon types GetRecord and Record, whose source files are
not under src/): uri, content id and a generic value. -/
structure Record (D : Type) where
  uri : String
  cid : String
  value : D
deriving Repr, DecidableEq

/-- Modelled from the spec: the record-list envelope returned by
listRecords (lexicon type ListRecords, whose source file is not under
src/): an ordered sequence of record envelopes. -/
structure ListRecords (D : Type) where
  records : List (Record D)
deriving Repr, DecidableEq

/-- The query built by both record operations: repo and collection, plus
rkey when present. -/
def recordQuery (repo : String) (collection : String)
    (rkey : Option String) : List (String × String) :=
  [("repo", repo), ("collection", collection)] ++
    (match rkey with
     | some k => [("rkey", k)]
     | none => [])

/-- fn repo_get_record: GET com.atproto.repo.getRecord with the record
query, expecting a record envelope, and return only its value field. -/
def repoGetRecord {D E : Type} (sess : Session) (stored : Option Session)
    (repo : String) (collection : String) (rkey : Option String)
    (o : DispatchOracle (Record D) E) :
    DispatchOut D (GetError E) XrpcGetRequest :=
  let r := xrpcGet sess stored "com.atproto.repo.getRecord"
    (some (recordQuery repo collection rkey)) o
  ⟨r.result.map (fun g => g.value), r.session, r.stored, r.reqs,
    r.refreshCalls, r.refreshReqs, r.saves⟩

/-- fn repo_list_records: GET com.atproto.repo.listRecords with the record
query, expecting a record-list envelope, and return the value field of
each entry in order. -/
def repoListRecords {D E : Type} (sess : Session) (stored : Option Session)
    (repo : String) (collection : String) (rkey : Option String)
    (o : DispatchOracle (ListRecords D) E) :
    DispatchOut (List D) (GetError E) XrpcGetRequest :=
  let r := xrpcGet sess stored "com.atproto.repo.listRecords"
    (some (recordQuery repo collection rkey)) o
  ⟨r.result.map (fun l => l.records.map (fun rec => rec.value)),
    r.session, r.stored, r.reqs, r.refreshCalls, r.refreshReqs, r.saves⟩

/-! Concrete sample values used by witnesses and counterexamples. -/

/-- A sample in-memory session before any refresh. -/
def sess0 : Session :=
  ⟨"did:plc:a", "alice.test", ⟨"access0", "refresh0"⟩⟩

/-- A sample refresh response carrying fresh credentials. -/
def rs0 : RefreshSession :=
  ⟨"did:plc:a", "alice.test", "access1", "refresh1"⟩

/-- The expired-token API error body. -/
def expiredErr : ApiError := ⟨"ExpiredToken", "Token has expired"⟩

/-- An API error body with a code other than ExpiredToken. -/
def otherErr : ApiError := ⟨"InvalidRequest", "bad request"⟩

/-- Helper: status 400 is in the error_for_status range. -/
theorem errorForStatus_400 : errorForStatus 400 = true := rfl

/-! Theorems, one per claim. -/

/-- C5: a login response and a refresh response carrying the same
identity, handle, access and refresh fields produce equal Sessions; for
either construction path the identity and handle are copied verbatim and
the credential pair equals the response access and refresh fields. -/
theorem session_construction_paths_agree :
    (∀ did handle access refresh : String,
      Session.fromCreate ⟨did, handle, access, refresh⟩ =
        Session.fromRefresh ⟨did, handle, access, refresh⟩) ∧
    (∀ c : CreateSession,
      (Session.fromCreate c).did = c.did ∧
      (Session.fromCreate c).handle = c.handle ∧
      (Session.fromCreate c).jwt.access = c.access_jwt ∧
      (Session.fromCreate c).jwt.refresh = c.refresh_jwt) ∧
    (∀ r : RefreshSession,
      (Session.fromRefresh r).did = r.did ∧
      (Session.fromRefresh r).handle = r.handle ∧
      (Session.fromRefresh r).jwt.access = r.access_jwt ∧
      (Session.fromRefresh r).jwt.refresh = r.refresh_jwt) :=
  ⟨fun _ _ _ _ => rfl,
   fun _ => ⟨rfl, rfl, rfl, rfl⟩,
   fun _ => ⟨rfl, rfl, rfl, rfl⟩⟩

/-- C4 counterexample: the two construction paths perform no validation,
so a response with empty credential fields yields a Session whose
credential strings are empty, refuting the non-emptiness invariant. -/
theorem session_empty_credentials_counterexample :
    (Session.fromCreate ⟨"did:plc:a", "alice.test", "", ""⟩).jwt.access
        = "" ∧
    (Session.fromRefresh ⟨"did:plc:a", "alice.test", "", ""⟩).jwt.refresh
        = "" :=
  ⟨rfl, rfl⟩

/-- C4 amended: a constructed Session carries the response credential
fields verbatim, so its credential strings are non-empty exactly when the
corresponding response fields are non-empty; no validation is enforced by
the constructors themselves. -/
theorem session_credentials_verbatim :
    ∀ (c : CreateSession) (r : RefreshSession),
      ((Session.fromCreate c).jwt.access = c.access_jwt ∧
        (Session.fromCreate c).jwt.refresh = c.refresh_jwt ∧
        ((Session.fromCreate c).jwt.access ≠ "" ↔ c.access_jwt ≠ "") ∧
        ((Session.fromCreate c).jwt.refresh ≠ "" ↔ c.refresh_jwt ≠ "")) ∧
      ((Session.fromRefresh r).jwt.access = r.access_jwt ∧
        (Session.fromRefresh r).jwt.refresh = r.refresh_jwt ∧
        ((Session.fromRefresh r).jwt.access ≠ "" ↔ r.access_jwt ≠ "") ∧
        ((Session.fromRefresh r).jwt.refresh ≠ "" ↔ r.refresh_jwt ≠ "")) :=
  fun _ _ =>
    ⟨⟨rfl, rfl, Iff.rfl, Iff.rfl⟩, ⟨rfl, rfl, Iff.rfl, Iff.rfl⟩⟩

/-- C3: at a login response whose status is neither 200 nor 401, here a
concrete 500, the code reaches the unreachable arm of the status match
and panics instead of returning a generic API-level failure. -/
theorem login_unexpected_status_panics :
    (login (E := Unit) "alice.test" "hunter2" none
        (.resp 500 none none) none).result = .panic :=
  rfl

/-- C9: a login call whose response status is unauthorized returns the
parsed server ApiError unmodified, never invokes the storage save, and
leaves the stored session unchanged. -/
theorem login_unauthorized_untouched_storage {E : Type}
    (identifier password : String) (stored : Option Session)
    (e : ApiError) (ac : Option CreateSession) (saveErr : Option E) :
    login identifier password stored (.resp 401 (some e) ac) saveErr =
      ⟨.err (.api e), stored, 0⟩ := by
  simp [login]

/-- C2: when the refresh endpoint succeeds (a non-error status and a body
that parses) but the storage save fails, the refresher returns a storage
error and the in-memory session is unchanged; moreover the in-memory
session is replaced only when the save succeeds. -/
theorem refresh_save_failure_keeps_session {E : Type}
    (sess : Session) (stored : Option Session) (s : Nat)
    (body : RefreshSession) (e : E)
    (hok : errorForStatus s = false) :
    ((xrpcRefreshToken sess stored (.resp s (some body)) (some e)).result
        = .error (.storage e) ∧
      (xrpcRefreshToken sess stored (.resp s (some body)) (some e)).session
        = sess) ∧
    (∀ (resp : RefreshSend) (saveErr : Option E),
      (xrpcRefreshToken sess stored resp saveErr).session ≠ sess →
        saveErr = none ∧
        (xrpcRefreshToken sess stored resp saveErr).result = .ok ()) := by
  constructor
  · simp [xrpcRefreshToken, hok]
  · intro resp saveErr h
    cases resp with
    | netErr => simp [xrpcRefreshToken] at h
    | resp st b =>
      rcases Bool.eq_false_or_eq_true (errorForStatus st) with hst | hst
      · simp [xrpcRefreshToken, hst] at h
      · cases b with
        | none => simp [xrpcRefreshToken, hst] at h
        | some rs =>
          cases saveErr with
          | some e2 => simp [xrpcRefreshToken, hst] at h
          | none => simp [xrpcRefreshToken, hst]

/-- C2 witness: at status 200 with a parsed body and a failing save, the
refresher reports the storage error and keeps the session. -/
theorem refresh_save_failure_keeps_session_witness :
    errorForStatus 200 = false ∧
    ((xrpcRefreshToken sess0 none (.resp 200 (some rs0)) (some ())).result
        = .error (.storage ()) ∧
      (xrpcRefreshToken sess0 none (.resp 200 (some rs0)) (some ())).session
        = sess0) :=
  ⟨rfl, (refresh_save_failure_keeps_session sess0 none 200 rs0 () rfl).1⟩

/-- C7: when the underlying dispatched GET succeeds, repo_get_record
returns exactly the value field of the record envelope, and
repo_list_records returns the value fields of the records of the list
envelope, one per record, in the given order. -/
theorem record_ops_return_value_fields {D E : Type}
    (sess : Session) (stored : Option Session)
    (repo collection : String) (rkey : Option String)
    (o : DispatchOracle (Record D) E)
    (o2 : DispatchOracle (ListRecords D) E) :
    (∀ g : Record D,
      (xrpcGet sess stored "com.atproto.repo.getRecord"
          (some (recordQuery repo collection rkey)) o).result = .ok g →
        (repoGetRecord sess stored repo collection rkey o).result
          = .ok g.value) ∧
    (∀ l : ListRecords D,
      (xrpcGet sess stored "com.atproto.repo.listRecords"
          (some (recordQuery repo collection rkey)) o2).result = .ok l →
        (repoListRecords sess stored repo collection rkey o2).result
          = .ok (l.records.map (fun rec => rec.value))) := by
  constructor
  · intro g h
    simp [repoGetRecord, h, Except.map]
  · intro l h
    simp [repoListRecords, h, Except.map]

/-- A sample record envelope carrying the payload 7. -/
def rec0 : Record Nat := ⟨"at://did:plc:a/app.test/1", "cid1", 7⟩

/-- A sample list envelope with two records in server order. -/
def listEnv0 : ListRecords Nat :=
  ⟨[⟨"at://u1", "c1", 1⟩, ⟨"at://u2", "c2", 2⟩]⟩

/-- Oracle for a successful getRecord call. -/
def c7GetOracle : DispatchOracle (Record Nat) Unit :=
  ⟨.resp 200 none (some rec0), .resp 200 (some rs0), none,
    .resp 200 none none⟩

/-- Oracle for a successful listRecords call. -/
def c7ListOracle : DispatchOracle (ListRecords Nat) Unit :=
  ⟨.resp 200 none (some listEnv0), .resp 200 (some rs0), none,
    .resp 200 none none⟩

/-- C7 witness: a successful getRecord yields the payload 7 and a
successful listRecords yields the two payloads in order. -/
theorem record_ops_return_value_fields_witness :
    (repoGetRecord sess0 none "did:plc:a" "app.test" none
        c7GetOracle).result = .ok (7 : Nat) ∧
    (repoListRecords sess0 none "did:plc:a" "app.test" none
        c7ListOracle).result = .ok [1, 2] :=
  ⟨(record_ops_return_value_fields sess0 none "did:plc:a" "app.test" none
      c7GetOracle c7ListOracle).1 rec0 rfl,
   (record_ops_return_value_fields sess0 none "did:plc:a" "app.test" none
      c7GetOracle c7ListOracle).2 listEnv0 rfl⟩

/-- Oracle for a GET whose first and retried responses both report the
expired-token error and whose refresh succeeds. -/
def c1Oracle : DispatchOracle Unit Unit :=
  ⟨.resp 400 (some expiredErr) none, .resp 200 (some rs0), none,
    .resp 400 (some expiredErr) none⟩

/-- C1 counterexample: when both responses report ExpiredToken, the call
returns the HTTP-status error produced by error_for_status on the second
status 400 — a reqwest-variant error, not an API error carrying the
server body, so the claim that an API error is returned fails. -/
theorem double_expired_not_api_error :
    (xrpcGet sess0 none "app.bsky.q" none c1Oracle).result
        = .error (.reqwest (.status 400)) ∧
    ∀ e : ApiError,
      (xrpcGet sess0 none "app.bsky.q" none c1Oracle).result
        ≠ .error (.api e) := by
  have h0 : (xrpcGet sess0 none "app.bsky.q" none c1Oracle).result
      = .error (.reqwest (.status 400)) := rfl
  refine ⟨h0, fun e h => ?_⟩
  rw [h0] at h
  simp at h

/-- C1 amended: for a GET or POST call whose first and retried responses
both carry status 400 with an ExpiredToken ApiError body and whose
refresh succeeds, the dispatcher invokes the token refresher exactly
once and, after the second response, returns an error — the HTTP-status
error produced by error_for_status on status 400, not a structured API
error — and the second ExpiredToken never triggers another refresh. -/
theorem one_refresh_then_status_error {D E : Type}
    (sess : Session) (stored : Option Session)
    (path : String) (query : Option (List (String × String)))
    (body : String) (o : DispatchOracle D E)
    (e1 e2 : ApiError) (av1 av2 : Option D)
    (rsStat : Nat) (rs : RefreshSession)
    (h1 : o.first = .resp 400 (some e1) av1)
    (he1 : e1.error = "ExpiredToken")
    (hr : o.refreshResp = .resp rsStat (some rs))
    (hrs : errorForStatus rsStat = false)
    (hsave : o.saveErr = none)
    (h2 : o.second = .resp 400 (some e2) av2)
    (he2 : e2.error = "ExpiredToken") :
    ((xrpcGet sess stored path query o).refreshCalls = 1 ∧
      (xrpcGet sess stored path query o).result
        = .error (.reqwest (.status 400))) ∧
    ((xrpcPost sess stored path (some body) o).refreshCalls = 1 ∧
      (xrpcPost sess stored path (some body) o).result
        = .error (.reqwest (.status 400))) := by
  simp [xrpcGet, xrpcPost, h1, he1, hr, hrs, hsave, h2,
    xrpcRefreshToken, finalizeResp, Except.mapError, errorForStatus_400]

/-- C1 witness: on the concrete double-expired oracle the refresher runs
exactly once. -/
theorem one_refresh_then_status_error_witness :
    (xrpcGet sess0 none "app.bsky.q" none c1Oracle).refreshCalls = 1 ∧
    (xrpcPost sess0 none "app.bsky.q" (some "bod") c1Oracle).refreshCalls
      = 1 :=
  ⟨((one_refresh_then_status_error sess0 none "app.bsky.q" none "bod"
      c1Oracle expiredErr expiredErr none none 200 rs0
      rfl rfl rfl rfl rfl rfl rfl).1).1,
   ((one_refresh_then_status_error sess0 none "app.bsky.q" none "bod"
      c1Oracle expiredErr expiredErr none none 200 rs0
      rfl rfl rfl rfl rfl rfl rfl).2).1⟩

/-- C6: for a GET whose first response is status 400 with an ExpiredToken
body and whose refresh succeeds, the dispatcher issues exactly two
requests to the target endpoint — the original bearing the old access
credential and the retry bearing the refreshed access credential, with
identical path and query — plus exactly one request to the refresh
endpoint, and the final in-memory session is the refreshed one. -/
theorem get_expired_refresh_success_trace {D E : Type}
    (sess : Session) (stored : Option Session)
    (path : String) (query : Option (List (String × String)))
    (o : DispatchOracle D E) (e1 : ApiError) (av1 : Option D)
    (rsStat : Nat) (rs : RefreshSession)
    (h1 : o.first = .resp 400 (some e1) av1)
    (he1 : e1.error = "ExpiredToken")
    (hr : o.refreshResp = .resp rsStat (some rs))
    (hrs : errorForStatus rsStat = false)
    (hsave : o.saveErr = none) :
    (xrpcGet sess stored path query o).reqs =
      [⟨sess.jwt.access, path, query⟩,
        ⟨(Session.fromRefresh rs).jwt.access, path, query⟩] ∧
    (xrpcGet sess stored path query o).refreshReqs = 1 ∧
    (xrpcGet sess stored path query o).session = Session.fromRefresh rs := by
  cases hsnd : o.second <;>
    simp [xrpcGet, h1, he1, hr, hrs, hsave, hsnd, xrpcRefreshToken]

/-- Oracle for a GET whose first response is expired, whose refresh
succeeds and whose retry succeeds. -/
def c6Oracle : DispatchOracle Unit Unit :=
  ⟨.resp 400 (some expiredErr) none, .resp 200 (some rs0), none,
    .resp 200 none (some ())⟩

/-- C6 witness: on the concrete oracle the two endpoint requests carry
the old and then the refreshed access credential, one refresh request is
made, and the session ends refreshed. -/
theorem get_expired_refresh_success_trace_witness :
    (xrpcGet sess0 none "app.bsky.q" none c6Oracle).reqs =
      [⟨"access0", "app.bsky.q", none⟩,
        ⟨"access1", "app.bsky.q", none⟩] ∧
    (xrpcGet sess0 none "app.bsky.q" none c6Oracle).refreshReqs = 1 ∧
    (xrpcGet sess0 none "app.bsky.q" none c6Oracle).session
      = Session.fromRefresh rs0 :=
  get_expired_refresh_success_trace sess0 none "app.bsky.q" none
    c6Oracle expiredErr none 200 rs0 rfl rfl rfl rfl rfl

/-- Oracle for a GET whose first response is a server error. -/
def c8Oracle : DispatchOracle Unit Unit :=
  ⟨.resp 500 none none, .resp 200 (some rs0), none,
    .resp 200 none (some ())⟩

/-- C8 counterexample: a GET whose first response has status 500 performs
no retry and no refresh, but returns the HTTP-status error produced by
error_for_status — a reqwest-variant error — not an API error, so the
claim that an API error is returned fails. -/
theorem server_error_not_api_error :
    (xrpcGet sess0 none "app.bsky.q" none c8Oracle).result
        = .error (.reqwest (.status 500)) ∧
    (∀ e : ApiError,
      (xrpcGet sess0 none "app.bsky.q" none c8Oracle).result
        ≠ .error (.api e)) ∧
    (xrpcGet sess0 none "app.bsky.q" none c8Oracle).reqs.length = 1 ∧
    (xrpcGet sess0 none "app.bsky.q" none c8Oracle).refreshCalls = 0 := by
  have h0 : (xrpcGet sess0 none "app.bsky.q" none c8Oracle).result
      = .error (.reqwest (.status 500)) := rfl
  refine ⟨h0, fun e h => ?_, rfl, rfl⟩
  rw [h0] at h
  simp at h

/-- C8 amended: a dispatched GET or POST performs no retry and no refresh
whenever the first response is not the expired-token case, and returns an
error: the server ApiError when status 400 carries a code other than
ExpiredToken, and the HTTP-status error from error_for_status for any
other status in the 400 to 599 range. -/
theorem dispatch_no_retry_without_expired {D E : Type}
    (sess : Session) (stored : Option Session)
    (path : String) (query : Option (List (String × String)))
    (body : String) (o : DispatchOracle D E) :
    (∀ (err : ApiError) (av : Option D),
      o.first = .resp 400 (some err) av → err.error ≠ "ExpiredToken" →
        ((xrpcGet sess stored path query o).result = .error (.api err) ∧
          (xrpcGet sess stored path query o).reqs.length = 1 ∧
          (xrpcGet sess stored path query o).refreshCalls = 0) ∧
        ((xrpcPost sess stored path (some body) o).result
            = .error (.api err) ∧
          (xrpcPost sess stored path (some body) o).reqs.length = 1 ∧
          (xrpcPost sess stored path (some body) o).refreshCalls = 0)) ∧
    (∀ (s : Nat) (ae : Option ApiError) (av : Option D),
      o.first = .resp s ae av → s ≠ 400 → errorForStatus s = true →
        ((xrpcGet sess stored path query o).result
            = .error (.reqwest (.status s)) ∧
          (xrpcGet sess stored path query o).reqs.length = 1 ∧
          (xrpcGet sess stored path query o).refreshCalls = 0) ∧
        ((xrpcPost sess stored path (some body) o).result
            = .error (.reqwest (.status s)) ∧
          (xrpcPost sess stored path (some body) o).reqs.length = 1 ∧
          (xrpcPost sess stored path (some body) o).refreshCalls = 0)) := by
  constructor
  · intro err av h1 hne
    simp [xrpcGet, xrpcPost, h1, hne]
  · intro s ae av h1 hs hef
    simp [xrpcGet, xrpcPost, h1, hs, hef, finalizeResp, Except.mapError]

/-- Oracle for a GET whose first response is a 400 with an ApiError code
other than ExpiredToken. -/
def c8ApiOracle : DispatchOracle Unit Unit :=
  ⟨.resp 400 (some otherErr) none, .resp 200 (some rs0), none,
    .resp 200 none (some ())⟩

/-- C8 witness: on the concrete non-expired 400 the server ApiError is
returned for both GET and POST. -/
theorem dispatch_no_retry_without_expired_witness :
    (xrpcGet sess0 none "app.bsky.q" none c8ApiOracle).result
        = .error (.api otherErr) ∧
    (xrpcPost sess0 none "app.bsky.q" (some "bod") c8ApiOracle).result
        = .error (.api otherErr) :=
  ⟨(((dispatch_no_retry_without_expired sess0 none "app.bsky.q" none "bod"
      c8ApiOracle).1 otherErr none rfl (by decide)).1).1,
   (((dispatch_no_retry_without_expired sess0 none "app.bsky.q" none "bod"
      c8ApiOracle).1 otherErr none rfl (by decide)).2).1⟩

/-- C10: for a GET or POST whose first response is a 400 ExpiredToken and
whose refresh — including the storage save — succeeds, if the call
nonetheless returns an error, the in-memory session still holds the
refreshed credentials; the failed call does not roll the session back to
its pre-call value. -/
theorem failed_retry_keeps_refreshed_session {D E : Type}
    (sess : Session) (stored : Option Session)
    (path : String) (query : Option (List (String × String)))
    (body : String) (o : DispatchOracle D E)
    (e1 : ApiError) (av1 : Option D) (rsStat : Nat) (rs : RefreshSession)
    (h1 : o.first = .resp 400 (some e1) av1)
    (he1 : e1.error = "ExpiredToken")
    (hr : o.refreshResp = .resp rsStat (some rs))
    (hrs : errorForStatus rsStat = false)
    (hsave : o.saveErr = none) :
    (∀ er, (xrpcGet sess stored path query o).result = .error er →
      (xrpcGet sess stored path query o).session
        = Session.fromRefresh rs) ∧
    (∀ er, (xrpcPost sess stored path (some body) o).result = .error er →
      (xrpcPost sess stored path (some body) o).session
        = Session.fromRefresh rs) := by
  constructor <;> intro er h <;> cases hsnd : o.second <;>
    simp [xrpcGet, xrpcPost, h1, he1, hr, hrs, hsave, hsnd,
      xrpcRefreshToken]

/-- Oracle for a GET whose retry fails at the network layer after a
successful refresh. -/
def c10Oracle : DispatchOracle Unit Unit :=
  ⟨.resp 400 (some expiredErr) none, .resp 200 (some rs0), none, .netErr⟩

/-- C10 witness: with the retry failing on the network, the session ends
holding the refreshed credentials. -/
theorem failed_retry_keeps_refreshed_session_witness :
    (xrpcGet sess0 none "app.bsky.q" none c10Oracle).session
        = Session.fromRefresh rs0 :=
  (failed_retry_keeps_refreshed_session sess0 none "app.bsky.q" none "bod"
      c10Oracle expiredErr none 200 rs0 rfl rfl rfl rfl rfl).1
    (.reqwest .network) rfl

end Bisky
